import Mathlib

/-!
Shallow embedding of `hooks/pre_gen_project.py`: a pydantic-based validator
for pipeline configuration JSON files.  JSON values are modelled by an
inductive type; each `constr`/`conint`/`Literal` constraint of the source
becomes a Boolean predicate on such values; the two pydantic models
(`MLPipeline`, `AgenticPipeline`) become conjunctions of per-field checks on
an association-list object; `PipelineUnion` accepts when either model does
(pydantic's union accepts a document iff at least one member validates).
The driver `main` is modelled over the outcome of globbing and JSON parsing
(both done by the Python standard library): a list of file names paired with
their parse result.
-/

namespace PreGenProject

/-- JSON values as produced by `json.load`.  Numeric literals in the
configuration files that the schemas constrain are integers (`conint`),
so numbers are modelled as `Int`. -/
inductive Json where
  | str (s : String)
  | num (n : Int)
  | boolean (b : Bool)
  | null
  | arr (elems : List Json)
  | obj (fields : List (String × Json))

/-- Characters matched by the regex class `[a-zA-Z0-9]`. -/
def isAlnumChar (c : Char) : Bool := c.isAlpha || c.isDigit

/-- Characters matched by the regex class `[a-z0-9]`. -/
def isLowerAlnumChar (c : Char) : Bool := c.isLower || c.isDigit

/-- Matches a nonempty tail of characters against `[mid]*[last]$`:
every character but the final one satisfies `mid`, the final one `last`. -/
def matchTail (mid last : Char → Bool) : List Char → Bool
  | [] => false
  | [c] => last c
  | c :: cs => mid c && matchTail mid last cs

/-- Matches a character list against the anchored regex shape
`^[first][mid]*[last]$` (which forces length at least 2). -/
def matchFML (first mid last : Char → Bool) : List Char → Bool
  | [] => false
  | c :: cs => first c && matchTail mid last cs

/-- `NamePatternStr`: `constr(min_length=3, max_length=30,
pattern=r"^[a-zA-Z0-9][a-zA-Z0-9-]*[a-zA-Z0-9]$")`. -/
def namePatternStr (s : String) : Bool :=
  let cs := s.toList
  3 ≤ cs.length && cs.length ≤ 30 &&
    matchFML isAlnumChar (fun c => isAlnumChar c || c == '-') isAlnumChar cs

/-- The pattern `^[^@]+@[^@]+\.[^@]+$` of `EmailStr`: at least one
non-`@` character, a single `@`, then a domain part that contains no `@`
and has a `.` preceded and followed by at least one character. -/
def emailPattern (s : String) : Bool :=
  let cs := s.toList
  let localPart := cs.takeWhile (fun c => c != '@')
  match cs.dropWhile (fun c => c != '@') with
  | [] => false
  | _ :: domain =>
      decide (1 ≤ localPart.length) && domain.all (fun c => c != '@') &&
        ((domain.drop 1).dropLast.contains '.')

/-- `EmailStr`: `constr(min_length=6, max_length=254,
pattern=r"^[^@]+@[^@]+\.[^@]+$")`. -/
def emailStr (s : String) : Bool :=
  6 ≤ s.toList.length && s.toList.length ≤ 254 && emailPattern s

/-- `ServiceAccountName`: `constr(min_length=6, max_length=30,
pattern=r"^[a-z][a-z0-9\-]{4,28}[a-z0-9]$")`.  The repetition bound
`{4,28}` on the middle class makes the pattern itself require a total
length of 6 to 30, matching the explicit length bounds. -/
def serviceAccountName (s : String) : Bool :=
  let cs := s.toList
  6 ≤ cs.length && cs.length ≤ 30 &&
    matchFML Char.isLower (fun c => isLowerAlnumChar c || c == '-')
      isLowerAlnumChar cs

/-- `BucketName`: `constr(min_length=3, max_length=63,
pattern=r"^[a-z0-9][a-z0-9\-_.]{1,61}[a-z0-9]$")`. -/
def bucketName (s : String) : Bool :=
  let cs := s.toList
  3 ≤ cs.length && cs.length ≤ 63 &&
    matchFML isLowerAlnumChar
      (fun c => isLowerAlnumChar c || c == '-' || c == '_' || c == '.')
      isLowerAlnumChar cs

/-- `DatasetName`: `constr(min_length=1, max_length=1024,
pattern=r"^[a-zA-Z0-9_]{1,1024}$")`. -/
def datasetName (s : String) : Bool :=
  let cs := s.toList
  1 ≤ cs.length && cs.length ≤ 1024 &&
    cs.all (fun c => isAlnumChar c || c == '_')

/-- `constr(min_length=3, max_length=250)` of `projectDescription`. -/
def descriptionStr (s : String) : Bool :=
  3 ≤ s.toList.length && s.toList.length ≤ 250

/-- `constr(min_length=3, max_length=200)` used for `Sources` entries. -/
def sourceStr (s : String) : Bool :=
  3 ≤ s.toList.length && s.toList.length ≤ 200

/-- The `ModelType` enumeration literals. -/
def modelTypeLits : List String :=
  ["classification", "regression", "clustering", "gen-ai", "time-series"]

/-- The `ComputeResourcesGPUType` enumeration literals. -/
def gpuTypeLits : List String :=
  ["T4", "V100", "P100", "P4", "L4", "A100", "H100", "H200"]

/-- The `runtimeBase` enumeration literals. -/
def runtimeBaseLits : List String :=
  ["Python3.9", "Python3.10", "ApacheBeam", "R", "Dataproc", "TF", "Pytorch"]

/-- A string field constrained by the predicate `p`. -/
def vStr (p : String → Bool) : Json → Bool
  | Json.str s => p s
  | _ => false

/-- `Union[List[X], X]` for a string type `X` constrained by `p`:
either one matching string or a JSON array of matching strings. -/
def vStrOrList (p : String → Bool) : Json → Bool
  | Json.str s => p s
  | Json.arr xs => xs.all (vStr p)
  | _ => false

/-- A `Literal[...]` field: the value must be exactly one of the strings. -/
def vEnum (lits : List String) : Json → Bool
  | Json.str s => lits.contains s
  | _ => false

/-- `Union[List[Literal[...]], Literal[...]]` as used for `ModelType`. -/
def vEnumOrList (lits : List String) : Json → Bool
  | Json.str s => lits.contains s
  | Json.arr xs => xs.all (vEnum lits)
  | _ => false

/-- `conint(ge=lo, le=hi)`: an integer within the inclusive range. -/
def vInt (lo hi : Int) : Json → Bool
  | Json.num n => lo ≤ n && n ≤ hi
  | _ => false

/-- The `dict` type of `InferenceSchema`: any JSON object. -/
def vDict : Json → Bool
  | Json.obj _ => true
  | _ => false

/-- A required field (`Field(...)`): the key must be present and its value
must satisfy the constraint.  `None`/`null` is not part of the annotated
type, so an explicit `null` fails. -/
def req (p : Json → Bool) : Option Json → Bool
  | some v => p v
  | none => false

/-- An optional field (`Optional[X] = Field(None, ...)`): absence is valid,
an explicit `null` is valid, and any other value must satisfy `p`. -/
def opt (p : Json → Bool) : Option Json → Bool
  | some Json.null => true
  | some v => p v
  | none => true

/-- The `MLPipeline` pydantic model, as a check on the field list of a JSON
object (`model_config` is left at its default, so unknown keys are ignored:
validation only inspects the declared field names).  Fields appear in
source order. -/
def validObjML (o : List (String × Json)) : Bool :=
  req (vStr namePatternStr) (o.lookup "projectName") &&
  req (vStr namePatternStr) (o.lookup "applicationName") &&
  req (vStr descriptionStr) (o.lookup "projectDescription") &&
  req (vStrOrList emailStr) (o.lookup "adminAccounts") &&
  req (vStrOrList emailStr) (o.lookup "viewerAccounts") &&
  opt (vStrOrList serviceAccountName) (o.lookup "serviceAccountMaasName") &&
  opt (vStrOrList serviceAccountName) (o.lookup "serviceAccountExplorationName") &&
  opt (vStrOrList serviceAccountName) (o.lookup "serviceAccountDiscoveryName") &&
  opt (vStr bucketName) (o.lookup "bucketMaasName") &&
  opt (vStr bucketName) (o.lookup "bucketExplorationName") &&
  opt (vStr bucketName) (o.lookup "bucketDiscoveryName") &&
  opt (vStr datasetName) (o.lookup "datasetMaasName") &&
  opt (vStr datasetName) (o.lookup "datasetExplorationName") &&
  opt (vStr datasetName) (o.lookup "datasetDiscoveryName") &&
  req (vInt 1 96) (o.lookup "ComputeResourcesCPU") &&
  req (vInt 1 624) (o.lookup "ComputeResourcesRAM") &&
  req (vInt 10 65536) (o.lookup "ComputeResourcesStorage") &&
  req (vInt 0 128) (o.lookup "ComputeResourcesGPUCores") &&
  req (vEnum gpuTypeLits) (o.lookup "ComputeResourcesGPUType") &&
  req (vStrOrList sourceStr) (o.lookup "Sources") &&
  req (vEnumOrList modelTypeLits) (o.lookup "ModelType") &&
  req vDict (o.lookup "InferenceSchema") &&
  req (vInt 1 1000000000) (o.lookup "SourceSizeEstimationKB") &&
  req (vInt 1 1000000000) (o.lookup "ModelSizeEstimationKB") &&
  req (vEnum runtimeBaseLits) (o.lookup "runtimeBase")

/-- The `AgenticPipeline` pydantic model: the same fields and constraints as
`MLPipeline` except that `ModelType` and `ModelSizeEstimationKB` are not
declared. -/
def validObjAgentic (o : List (String × Json)) : Bool :=
  req (vStr namePatternStr) (o.lookup "projectName") &&
  req (vStr namePatternStr) (o.lookup "applicationName") &&
  req (vStr descriptionStr) (o.lookup "projectDescription") &&
  req (vStrOrList emailStr) (o.lookup "adminAccounts") &&
  req (vStrOrList emailStr) (o.lookup "viewerAccounts") &&
  opt (vStrOrList serviceAccountName) (o.lookup "serviceAccountMaasName") &&
  opt (vStrOrList serviceAccountName) (o.lookup "serviceAccountExplorationName") &&
  opt (vStrOrList serviceAccountName) (o.lookup "serviceAccountDiscoveryName") &&
  opt (vStr bucketName) (o.lookup "bucketMaasName") &&
  opt (vStr bucketName) (o.lookup "bucketExplorationName") &&
  opt (vStr bucketName) (o.lookup "bucketDiscoveryName") &&
  opt (vStr datasetName) (o.lookup "datasetMaasName") &&
  opt (vStr datasetName) (o.lookup "datasetExplorationName") &&
  opt (vStr datasetName) (o.lookup "datasetDiscoveryName") &&
  req (vInt 1 96) (o.lookup "ComputeResourcesCPU") &&
  req (vInt 1 624) (o.lookup "ComputeResourcesRAM") &&
  req (vInt 10 65536) (o.lookup "ComputeResourcesStorage") &&
  req (vInt 0 128) (o.lookup "ComputeResourcesGPUCores") &&
  req (vEnum gpuTypeLits) (o.lookup "ComputeResourcesGPUType") &&
  req (vStrOrList sourceStr) (o.lookup "Sources") &&
  req vDict (o.lookup "InferenceSchema") &&
  req (vInt 1 1000000000) (o.lookup "SourceSizeEstimationKB") &&
  req (vEnum runtimeBaseLits) (o.lookup "runtimeBase")

/-- `MLPipeline.model_validate`: a JSON value validates iff it is an object
whose fields pass `validObjML`. -/
def validatesML : Json → Bool
  | Json.obj o => validObjML o
  | _ => false

/-- `AgenticPipeline.model_validate`. -/
def validatesAgentic : Json → Bool
  | Json.obj o => validObjAgentic o
  | _ => false

/-- `PipelineUnion.model_validate`: the root model wraps
`Union[MLPipeline, AgenticPipeline]`, so a document is accepted iff at
least one of the two member models validates it. -/
def validatesUnion (j : Json) : Bool :=
  validatesML j || validatesAgentic j

/-- The field names declared by `MLPipeline` (source order). -/
def mlFieldNames : List String :=
  ["projectName", "applicationName", "projectDescription", "adminAccounts",
   "viewerAccounts", "serviceAccountMaasName", "serviceAccountExplorationName",
   "serviceAccountDiscoveryName", "bucketMaasName", "bucketExplorationName",
   "bucketDiscoveryName", "datasetMaasName", "datasetExplorationName",
   "datasetDiscoveryName", "ComputeResourcesCPU", "ComputeResourcesRAM",
   "ComputeResourcesStorage", "ComputeResourcesGPUCores",
   "ComputeResourcesGPUType", "Sources", "ModelType", "InferenceSchema",
   "SourceSizeEstimationKB", "ModelSizeEstimationKB", "runtimeBase"]

/-- The field names declared by `AgenticPipeline`: those of `MLPipeline`
without `ModelType` and `ModelSizeEstimationKB`. -/
def agenticFieldNames : List String :=
  mlFieldNames.filter (fun k => k != "ModelType" && k != "ModelSizeEstimationKB")

/-- The required (non-`Optional`) fields of `MLPipeline`, each paired with
its constraint, in source order. -/
def mlRequiredOK (o : List (String × Json)) : Bool :=
  req (vStr namePatternStr) (o.lookup "projectName") &&
  req (vStr namePatternStr) (o.lookup "applicationName") &&
  req (vStr descriptionStr) (o.lookup "projectDescription") &&
  req (vStrOrList emailStr) (o.lookup "adminAccounts") &&
  req (vStrOrList emailStr) (o.lookup "viewerAccounts") &&
  req (vInt 1 96) (o.lookup "ComputeResourcesCPU") &&
  req (vInt 1 624) (o.lookup "ComputeResourcesRAM") &&
  req (vInt 10 65536) (o.lookup "ComputeResourcesStorage") &&
  req (vInt 0 128) (o.lookup "ComputeResourcesGPUCores") &&
  req (vEnum gpuTypeLits) (o.lookup "ComputeResourcesGPUType") &&
  req (vStrOrList sourceStr) (o.lookup "Sources") &&
  req (vEnumOrList modelTypeLits) (o.lookup "ModelType") &&
  req vDict (o.lookup "InferenceSchema") &&
  req (vInt 1 1000000000) (o.lookup "SourceSizeEstimationKB") &&
  req (vInt 1 1000000000) (o.lookup "ModelSizeEstimationKB") &&
  req (vEnum runtimeBaseLits) (o.lookup "runtimeBase")

/-- The required fields of `AgenticPipeline` with their constraints. -/
def agenticRequiredOK (o : List (String × Json)) : Bool :=
  req (vStr namePatternStr) (o.lookup "projectName") &&
  req (vStr namePatternStr) (o.lookup "applicationName") &&
  req (vStr descriptionStr) (o.lookup "projectDescription") &&
  req (vStrOrList emailStr) (o.lookup "adminAccounts") &&
  req (vStrOrList emailStr) (o.lookup "viewerAccounts") &&
  req (vInt 1 96) (o.lookup "ComputeResourcesCPU") &&
  req (vInt 1 624) (o.lookup "ComputeResourcesRAM") &&
  req (vInt 10 65536) (o.lookup "ComputeResourcesStorage") &&
  req (vInt 0 128) (o.lookup "ComputeResourcesGPUCores") &&
  req (vEnum gpuTypeLits) (o.lookup "ComputeResourcesGPUType") &&
  req (vStrOrList sourceStr) (o.lookup "Sources") &&
  req vDict (o.lookup "InferenceSchema") &&
  req (vInt 1 1000000000) (o.lookup "SourceSizeEstimationKB") &&
  req (vEnum runtimeBaseLits) (o.lookup "runtimeBase")

/-- The `Optional` fields of the models (the same nine in both). -/
def optionalFieldNames : List String :=
  ["serviceAccountMaasName", "serviceAccountExplorationName",
   "serviceAccountDiscoveryName", "bucketMaasName", "bucketExplorationName",
   "bucketDiscoveryName", "datasetMaasName", "datasetExplorationName",
   "datasetDiscoveryName"]

/-- All optional fields are omitted from the object. -/
def optionalAbsent (o : List (String × Json)) : Bool :=
  optionalFieldNames.all (fun k => (o.lookup k).isNone)

/-- One output event of `main`.  `infoNoFiles` models the
`[INFO] No se encontraron archivos JSON para validar.` notice,
`parseError f` the `[ERROR] El archivo {f} no es un JSON válido.` line,
`schemaError f` the `[ERROR] El archivo {f} no cumple con el modelo
Pydantic:` line together with the printed validation-error JSON, and
`successBanner` the final confirmation line. -/
inductive OutMsg where
  | infoNoFiles
  | parseError (f : String)
  | schemaError (f : String)
  | successBanner
deriving DecidableEq, Repr

/-- The per-file loop of `main`.  Each file is given with the outcome of
`json.load` on its contents: `none` models a `JSONDecodeError`.  On the
first parse failure or validation failure the loop prints a diagnostic and
returns exit code 1; if every file passes, the success banner is printed
and the exit code is 0. -/
def processFiles : List (String × Option Json) → Nat × List OutMsg
  | [] => (0, [OutMsg.successBanner])
  | (f, none) :: _ => (1, [OutMsg.parseError f])
  | (f, some d) :: rest =>
      if validatesUnion d then processFiles rest
      else (1, [OutMsg.schemaError f])

/-- `main`, over the list of globbed files paired with their parse
results: with no files it prints the informational notice and returns 0;
otherwise it runs the per-file loop. -/
def main (files : List (String × Option Json)) : Nat × List OutMsg :=
  match files with
  | [] => (0, [OutMsg.infoNoFiles])
  | _ => processFiles files

/-- A concrete configuration document that satisfies every required-field
constraint of `MLPipeline` and omits every optional field. -/
def validMLDoc : List (String × Json) :=
  [("projectName", Json.str "abc"),
   ("applicationName", Json.str "churn-model"),
   ("projectDescription", Json.str "Predicts customer churn for retention"),
   ("adminAccounts", Json.arr [Json.str "a@b.co"]),
   ("viewerAccounts", Json.str "viewer@example.com"),
   ("ComputeResourcesCPU", Json.num 4),
   ("ComputeResourcesRAM", Json.num 16),
   ("ComputeResourcesStorage", Json.num 100),
   ("ComputeResourcesGPUCores", Json.num 0),
   ("ComputeResourcesGPUType", Json.str "T4"),
   ("Sources", Json.str "bq://project.dataset.table"),
   ("ModelType", Json.str "classification"),
   ("InferenceSchema", Json.obj []),
   ("SourceSizeEstimationKB", Json.num 1000),
   ("ModelSizeEstimationKB", Json.num 500),
   ("runtimeBase", Json.str "Python3.10")]

/-- `validMLDoc` without the two fields specific to `MLPipeline`: a
document in the `AgenticPipeline` shape. -/
def validAgenticDoc : List (String × Json) :=
  validMLDoc.filter (fun kv =>
    kv.1 != "ModelType" && kv.1 != "ModelSizeEstimationKB")

/-- Setting a field of a JSON object: prepends the binding, which both
adds a fresh key and overrides an existing one, because `List.lookup`
returns the first matching binding. -/
def setField (o : List (String × Json)) (k : String) (v : Json) :
    List (String × Json) :=
  (k, v) :: o

theorem lookup_cons (k k' : String) (v : Json) (o : List (String × Json)) :
    ((k, v) :: o).lookup k' = cond (k' == k) (some v) (o.lookup k') := by
  cases h : k' == k <;> simp [List.lookup, h]

/-- `AgenticPipeline` checks a subset of the fields `MLPipeline` checks,
with identical constraints, so every object accepted by the ML model is
accepted by the Agentic model. -/
theorem agentic_of_ml (o : List (String × Json))
    (h : validObjML o = true) : validObjAgentic o = true := by
  simp only [validObjML, Bool.and_eq_true] at h
  simp only [validObjAgentic, Bool.and_eq_true]
  tauto

theorem ml_set_projectName_true (v : Json) (o : List (String × Json))
    (hv : vStr namePatternStr v = true) (h : validObjML o = true) :
    validObjML (setField o "projectName" v) = true := by
  simp only [validObjML, Bool.and_eq_true] at h
  simp only [setField, validObjML, lookup_cons, String.reduceBEq, cond_false,
    cond_true, req, hv, Bool.true_and, Bool.and_eq_true]
  tauto

theorem ag_set_projectName_true (v : Json) (o : List (String × Json))
    (hv : vStr namePatternStr v = true) (h : validObjAgentic o = true) :
    validObjAgentic (setField o "projectName" v) = true := by
  simp only [validObjAgentic, Bool.and_eq_true] at h
  simp only [setField, validObjAgentic, lookup_cons, String.reduceBEq, cond_false,
    cond_true, req, hv, Bool.true_and, Bool.and_eq_true]
  tauto

theorem ml_set_projectName_false (v : Json) (o : List (String × Json))
    (hv : vStr namePatternStr v = false) :
    validObjML (setField o "projectName" v) = false := by
  simp only [setField, validObjML, lookup_cons, String.reduceBEq, cond_false,
    cond_true, req, hv, Bool.false_and, Bool.and_false]

theorem ag_set_projectName_false (v : Json) (o : List (String × Json))
    (hv : vStr namePatternStr v = false) :
    validObjAgentic (setField o "projectName" v) = false := by
  simp only [setField, validObjAgentic, lookup_cons, String.reduceBEq, cond_false,
    cond_true, req, hv, Bool.false_and, Bool.and_false]

theorem ml_set_adminAccounts_true (v : Json) (o : List (String × Json))
    (hv : vStrOrList emailStr v = true) (h : validObjML o = true) :
    validObjML (setField o "adminAccounts" v) = true := by
  simp only [validObjML, Bool.and_eq_true] at h
  simp only [setField, validObjML, lookup_cons, String.reduceBEq, cond_false,
    cond_true, req, hv, Bool.true_and, Bool.and_eq_true]
  tauto

theorem ag_set_adminAccounts_true (v : Json) (o : List (String × Json))
    (hv : vStrOrList emailStr v = true) (h : validObjAgentic o = true) :
    validObjAgentic (setField o "adminAccounts" v) = true := by
  simp only [validObjAgentic, Bool.and_eq_true] at h
  simp only [setField, validObjAgentic, lookup_cons, String.reduceBEq, cond_false,
    cond_true, req, hv, Bool.true_and, Bool.and_eq_true]
  tauto

theorem ml_set_adminAccounts_false (v : Json) (o : List (String × Json))
    (hv : vStrOrList emailStr v = false) :
    validObjML (setField o "adminAccounts" v) = false := by
  simp only [setField, validObjML, lookup_cons, String.reduceBEq, cond_false,
    cond_true, req, hv, Bool.false_and, Bool.and_false]

theorem ag_set_adminAccounts_false (v : Json) (o : List (String × Json))
    (hv : vStrOrList emailStr v = false) :
    validObjAgentic (setField o "adminAccounts" v) = false := by
  simp only [setField, validObjAgentic, lookup_cons, String.reduceBEq, cond_false,
    cond_true, req, hv, Bool.false_and, Bool.and_false]

theorem ml_set_adminAccounts_inv (v : Json) (o : List (String × Json))
    (h : validObjML (setField o "adminAccounts" v) = true) :
    vStrOrList emailStr v = true := by
  simp only [setField, validObjML, lookup_cons, String.reduceBEq, cond_false,
    cond_true, req, Bool.and_eq_true] at h
  tauto

theorem ag_set_adminAccounts_inv (v : Json) (o : List (String × Json))
    (h : validObjAgentic (setField o "adminAccounts" v) = true) :
    vStrOrList emailStr v = true := by
  simp only [setField, validObjAgentic, lookup_cons, String.reduceBEq, cond_false,
    cond_true, req, Bool.and_eq_true] at h
  tauto

theorem ml_set_modelType_false (v : Json) (o : List (String × Json))
    (hv : vEnumOrList modelTypeLits v = false) :
    validObjML (setField o "ModelType" v) = false := by
  simp only [setField, validObjML, lookup_cons, String.reduceBEq, cond_false,
    cond_true, req, hv, Bool.false_and, Bool.and_false]

/-- `AgenticPipeline` declares no `ModelType` field, so setting it does
not change the Agentic verdict. -/
theorem ag_set_modelType_id (v : Json) (o : List (String × Json)) :
    validObjAgentic (setField o "ModelType" v) = validObjAgentic o := by
  simp only [setField, validObjAgentic, lookup_cons, String.reduceBEq, cond_false]

theorem ml_set_bucketMaas_true (v : Json) (o : List (String × Json))
    (hv : opt (vStr bucketName) (some v) = true) (h : validObjML o = true) :
    validObjML (setField o "bucketMaasName" v) = true := by
  simp only [validObjML, Bool.and_eq_true] at h
  simp only [setField, validObjML, lookup_cons, String.reduceBEq, cond_false,
    cond_true, hv, Bool.true_and, Bool.and_eq_true]
  tauto

theorem ag_set_bucketMaas_true (v : Json) (o : List (String × Json))
    (hv : opt (vStr bucketName) (some v) = true) (h : validObjAgentic o = true) :
    validObjAgentic (setField o "bucketMaasName" v) = true := by
  simp only [validObjAgentic, Bool.and_eq_true] at h
  simp only [setField, validObjAgentic, lookup_cons, String.reduceBEq, cond_false,
    cond_true, hv, Bool.true_and, Bool.and_eq_true]
  tauto

theorem ml_set_bucketMaas_false (v : Json) (o : List (String × Json))
    (hv : opt (vStr bucketName) (some v) = false) :
    validObjML (setField o "bucketMaasName" v) = false := by
  simp only [setField, validObjML, lookup_cons, String.reduceBEq, cond_false,
    cond_true, hv, Bool.false_and, Bool.and_false]

theorem ag_set_bucketMaas_false (v : Json) (o : List (String × Json))
    (hv : opt (vStr bucketName) (some v) = false) :
    validObjAgentic (setField o "bucketMaasName" v) = false := by
  simp only [setField, validObjAgentic, lookup_cons, String.reduceBEq, cond_false,
    cond_true, hv, Bool.false_and, Bool.and_false]

theorem ml_set_bucketMaas_inv (v : Json) (o : List (String × Json))
    (h : validObjML (setField o "bucketMaasName" v) = true) :
    opt (vStr bucketName) (some v) = true := by
  simp only [setField, validObjML, lookup_cons, String.reduceBEq, cond_false,
    cond_true, Bool.and_eq_true] at h
  tauto

theorem ag_set_bucketMaas_inv (v : Json) (o : List (String × Json))
    (h : validObjAgentic (setField o "bucketMaasName" v) = true) :
    opt (vStr bucketName) (some v) = true := by
  simp only [setField, validObjAgentic, lookup_cons, String.reduceBEq, cond_false,
    cond_true, Bool.and_eq_true] at h
  tauto

/-- Neither pydantic model declares a field named `k`, so a binding for
`k` is ignored (`model_config` defaults, `extra` unset): the ML verdict
is unchanged. -/
theorem ml_set_extra_id (k : String) (v : Json) (o : List (String × Json))
    (hk : k ∉ mlFieldNames) :
    validObjML (setField o k v) = validObjML o := by
  simp only [mlFieldNames, List.mem_cons, List.not_mem_nil, or_false] at hk
  push_neg at hk
  obtain ⟨n1, n2, n3, n4, n5, n6, n7, n8, n9, n10, n11, n12, n13,
    n14, n15, n16, n17, n18, n19, n20, n21, n22, n23, n24, n25⟩ := hk
  simp only [setField, validObjML, lookup_cons,
    beq_eq_false_iff_ne.mpr (Ne.symm n1), beq_eq_false_iff_ne.mpr (Ne.symm n2),
    beq_eq_false_iff_ne.mpr (Ne.symm n3), beq_eq_false_iff_ne.mpr (Ne.symm n4),
    beq_eq_false_iff_ne.mpr (Ne.symm n5), beq_eq_false_iff_ne.mpr (Ne.symm n6),
    beq_eq_false_iff_ne.mpr (Ne.symm n7), beq_eq_false_iff_ne.mpr (Ne.symm n8),
    beq_eq_false_iff_ne.mpr (Ne.symm n9), beq_eq_false_iff_ne.mpr (Ne.symm n10),
    beq_eq_false_iff_ne.mpr (Ne.symm n11), beq_eq_false_iff_ne.mpr (Ne.symm n12),
    beq_eq_false_iff_ne.mpr (Ne.symm n13), beq_eq_false_iff_ne.mpr (Ne.symm n14),
    beq_eq_false_iff_ne.mpr (Ne.symm n15), beq_eq_false_iff_ne.mpr (Ne.symm n16),
    beq_eq_false_iff_ne.mpr (Ne.symm n17), beq_eq_false_iff_ne.mpr (Ne.symm n18),
    beq_eq_false_iff_ne.mpr (Ne.symm n19), beq_eq_false_iff_ne.mpr (Ne.symm n20),
    beq_eq_false_iff_ne.mpr (Ne.symm n21), beq_eq_false_iff_ne.mpr (Ne.symm n22),
    beq_eq_false_iff_ne.mpr (Ne.symm n23), beq_eq_false_iff_ne.mpr (Ne.symm n24),
    beq_eq_false_iff_ne.mpr (Ne.symm n25), cond_false]

/-- The Agentic counterpart of `ml_set_extra_id`.  Its field names are a
subset of `mlFieldNames`, so the same hypothesis suffices. -/
theorem ag_set_extra_id (k : String) (v : Json) (o : List (String × Json))
    (hk : k ∉ mlFieldNames) :
    validObjAgentic (setField o k v) = validObjAgentic o := by
  simp only [mlFieldNames, List.mem_cons, List.not_mem_nil, or_false] at hk
  push_neg at hk
  obtain ⟨n1, n2, n3, n4, n5, n6, n7, n8, n9, n10, n11, n12, n13,
    n14, n15, n16, n17, n18, n19, n20, n21, n22, n23, n24, n25⟩ := hk
  simp only [setField, validObjAgentic, lookup_cons,
    beq_eq_false_iff_ne.mpr (Ne.symm n1), beq_eq_false_iff_ne.mpr (Ne.symm n2),
    beq_eq_false_iff_ne.mpr (Ne.symm n3), beq_eq_false_iff_ne.mpr (Ne.symm n4),
    beq_eq_false_iff_ne.mpr (Ne.symm n5), beq_eq_false_iff_ne.mpr (Ne.symm n6),
    beq_eq_false_iff_ne.mpr (Ne.symm n7), beq_eq_false_iff_ne.mpr (Ne.symm n8),
    beq_eq_false_iff_ne.mpr (Ne.symm n9), beq_eq_false_iff_ne.mpr (Ne.symm n10),
    beq_eq_false_iff_ne.mpr (Ne.symm n11), beq_eq_false_iff_ne.mpr (Ne.symm n12),
    beq_eq_false_iff_ne.mpr (Ne.symm n13), beq_eq_false_iff_ne.mpr (Ne.symm n14),
    beq_eq_false_iff_ne.mpr (Ne.symm n15), beq_eq_false_iff_ne.mpr (Ne.symm n16),
    beq_eq_false_iff_ne.mpr (Ne.symm n17), beq_eq_false_iff_ne.mpr (Ne.symm n18),
    beq_eq_false_iff_ne.mpr (Ne.symm n19), beq_eq_false_iff_ne.mpr (Ne.symm n20),
    beq_eq_false_iff_ne.mpr (Ne.symm n21), beq_eq_false_iff_ne.mpr (Ne.symm n22),
    beq_eq_false_iff_ne.mpr (Ne.symm n23), beq_eq_false_iff_ne.mpr (Ne.symm n24),
    beq_eq_false_iff_ne.mpr (Ne.symm n25), cond_false]

/-- One file passes the loop body of `main` without aborting: its
contents parse and the parsed document is accepted by the union. -/
def parseAndValidOK (x : String × Option Json) : Bool :=
  match x.2 with
  | some d => validatesUnion d
  | none => false

/-- A prefix of files that all parse and validate is consumed by the
loop without any output or early return. -/
theorem processFiles_append_ok (pre rest : List (String × Option Json))
    (hpre : pre.all parseAndValidOK = true) :
    processFiles (pre ++ rest) = processFiles rest := by
  induction pre with
  | nil => rfl
  | cons a l ih =>
      simp only [List.all_cons, Bool.and_eq_true] at hpre
      obtain ⟨f, od⟩ := a
      cases od with
      | none => simp [parseAndValidOK] at hpre
      | some d =>
          have hd : validatesUnion d = true := hpre.1
          simp only [List.cons_append, processFiles, hd, if_true]
          exact ih hpre.2

/-- C1: every JSON object that satisfies all required-field constraints of
the `MLPipeline` variant and omits all optional fields is accepted by the
`PipelineUnion` schema union. -/
theorem C1_ml_variant_accepted (o : List (String × Json))
    (hreq : mlRequiredOK o = true) (hopt : optionalAbsent o = true) :
    validatesUnion (Json.obj o) = true := by
  simp only [optionalAbsent, optionalFieldNames, List.all_cons, List.all_nil,
    Bool.and_eq_true, Option.isNone_iff_eq_none, and_true] at hopt
  obtain ⟨e1, e2, e3, e4, e5, e6, e7, e8, e9⟩ := hopt
  simp only [mlRequiredOK, Bool.and_eq_true] at hreq
  simp only [validatesUnion, validatesML, Bool.or_eq_true]
  left
  simp only [validObjML, e1, e2, e3, e4, e5, e6, e7, e8, e9, opt,
    Bool.true_and, Bool.and_true, Bool.and_eq_true]
  tauto

/-- Witness for C1: the concrete document `validMLDoc` satisfies the
hypotheses and is accepted. -/
theorem C1_witness :
    mlRequiredOK validMLDoc = true ∧ optionalAbsent validMLDoc = true ∧
      validatesUnion (Json.obj validMLDoc) = true :=
  ⟨by decide, by decide, C1_ml_variant_accepted validMLDoc (by decide) (by decide)⟩

/-- C2: a document of the `AgenticPipeline` shape, with no `ModelType` and
no `ModelSizeEstimationKB` but all other required fields valid, is accepted
by the schema union, even though the `MLPipeline` variant rejects it for
the missing `ModelType`. -/
theorem C2_agentic_shape_accepted (o : List (String × Json))
    (hag : validObjAgentic o = true)
    (hmt : (o.lookup "ModelType").isNone = true)
    (_hms : (o.lookup "ModelSizeEstimationKB").isNone = true) :
    validatesUnion (Json.obj o) = true ∧ validatesML (Json.obj o) = false := by
  have hmt' : o.lookup "ModelType" = none := Option.isNone_iff_eq_none.mp hmt
  constructor
  · simp only [validatesUnion, validatesML, validatesAgentic, Bool.or_eq_true]
    right
    exact hag
  · simp only [validatesML, validObjML, hmt', req, Bool.and_false, Bool.false_and]

/-- Witness for C2: the concrete document `validAgenticDoc`. -/
theorem C2_witness :
    (validObjAgentic validAgenticDoc = true ∧
      (validAgenticDoc.lookup "ModelType").isNone = true ∧
      (validAgenticDoc.lookup "ModelSizeEstimationKB").isNone = true) ∧
    validatesUnion (Json.obj validAgenticDoc) = true ∧
      validatesML (Json.obj validAgenticDoc) = false :=
  ⟨⟨by decide, by decide, by decide⟩,
    C2_agentic_shape_accepted validAgenticDoc (by decide) (by decide) (by decide)⟩

/-- Counterexample to C3 as stated: the concrete document `validMLDoc`
validates fully against both the `MLPipeline` variant and the
`AgenticPipeline` variant at the same time, so the two variants are not
mutually exclusive. -/
theorem C3_counterexample :
    validatesML (Json.obj validMLDoc) = true ∧
      validatesAgentic (Json.obj validMLDoc) = true := by decide

/-- C3 (amended): far from being mutually exclusive, the variants overlap
maximally: every JSON value accepted by the `MLPipeline` variant is also
accepted by the `AgenticPipeline` variant, because the Agentic model checks
a subset of the ML model's fields with identical constraints and ignores
undeclared keys. -/
theorem C3_ml_subset_agentic (j : Json) (h : validatesML j = true) :
    validatesAgentic j = true := by
  cases j with
  | obj o => exact agentic_of_ml o h
  | str s => simp [validatesML] at h
  | num n => simp [validatesML] at h
  | boolean b => simp [validatesML] at h
  | null => simp [validatesML] at h
  | arr xs => simp [validatesML] at h

/-- Witness for the amended C3, at the concrete document `validMLDoc`. -/
theorem C3_witness :
    validatesML (Json.obj validMLDoc) = true ∧
      validatesAgentic (Json.obj validMLDoc) = true :=
  ⟨by decide, C3_ml_subset_agentic (Json.obj validMLDoc) (by decide)⟩

/-- Counterexample to C4 as stated: with `ModelType` set to
`"invalid-type"` on the otherwise fully valid document `validMLDoc`,
schema-union validation still succeeds (through the Agentic variant),
whereas the claim says it fails. -/
theorem C4_counterexample :
    validatesUnion
      (Json.obj (setField validMLDoc "ModelType" (Json.str "invalid-type"))) =
      true := by decide

/-- C4 (amended): on any document accepted by the union, setting
`ModelType` to `"invalid-type"` makes the `MLPipeline` variant reject it,
but the schema union still accepts it via the `AgenticPipeline` variant,
which has no `ModelType` field and ignores it; setting `ModelType` to
`"classification"` or to `["regression", "gen-ai"]` also keeps the
document accepted. -/
theorem C4_modelType_rules (o : List (String × Json))
    (h : validatesUnion (Json.obj o) = true) :
    validatesML
        (Json.obj (setField o "ModelType" (Json.str "invalid-type"))) = false ∧
    validatesUnion
        (Json.obj (setField o "ModelType" (Json.str "invalid-type"))) = true ∧
    validatesUnion
        (Json.obj (setField o "ModelType" (Json.str "classification"))) = true ∧
    validatesUnion
        (Json.obj (setField o "ModelType"
          (Json.arr [Json.str "regression", Json.str "gen-ai"]))) = true := by
  have hag : validObjAgentic o = true := by
    simp only [validatesUnion, validatesML, validatesAgentic,
      Bool.or_eq_true] at h
    rcases h with h | h
    · exact agentic_of_ml o h
    · exact h
  refine ⟨?_, ?_, ?_, ?_⟩
  · simp only [validatesML]
    exact ml_set_modelType_false (Json.str "invalid-type") o (by decide)
  · simp only [validatesUnion, validatesML, validatesAgentic, Bool.or_eq_true]
    right
    rw [ag_set_modelType_id]
    exact hag
  · simp only [validatesUnion, validatesML, validatesAgentic, Bool.or_eq_true]
    right
    rw [ag_set_modelType_id]
    exact hag
  · simp only [validatesUnion, validatesML, validatesAgentic, Bool.or_eq_true]
    right
    rw [ag_set_modelType_id]
    exact hag

/-- Witness for the amended C4, at the concrete document `validMLDoc`. -/
theorem C4_witness :
    validatesUnion (Json.obj validMLDoc) = true ∧
      (validatesML
          (Json.obj (setField validMLDoc "ModelType"
            (Json.str "invalid-type"))) = false ∧
        validatesUnion
          (Json.obj (setField validMLDoc "ModelType"
            (Json.str "invalid-type"))) = true ∧
        validatesUnion
          (Json.obj (setField validMLDoc "ModelType"
            (Json.str "classification"))) = true ∧
        validatesUnion
          (Json.obj (setField validMLDoc "ModelType"
            (Json.arr [Json.str "regression", Json.str "gen-ai"]))) = true) :=
  ⟨by decide, C4_modelType_rules validMLDoc (by decide)⟩

/-- C5: if every file before some file `f` parses and validates, and `f`
fails to parse, `main` returns exit code 1 together with exactly the
parse-error diagnostic naming `f`; the files after `f` do not influence
the result at all (short-circuit). -/
theorem C5_parse_error_short_circuit (pre post : List (String × Option Json))
    (f : String) (hpre : pre.all parseAndValidOK = true) :
    main (pre ++ (f, none) :: post) = (1, [OutMsg.parseError f]) := by
  have key : processFiles (pre ++ (f, none) :: post) =
      (1, [OutMsg.parseError f]) := by
    rw [processFiles_append_ok pre _ hpre]
    rfl
  cases pre with
  | nil => exact key
  | cons a l => exact key

/-- Witness for C5: one valid file, then an unparsable file, then another
file that is never reached. -/
theorem C5_witness :
    [("good.json", some (Json.obj validMLDoc))].all parseAndValidOK = true ∧
      main ([("good.json", some (Json.obj validMLDoc))] ++
          ("bad.json", (none : Option Json)) :: [("later.json", none)]) =
        (1, [OutMsg.parseError "bad.json"]) :=
  ⟨by decide,
    C5_parse_error_short_circuit [("good.json", some (Json.obj validMLDoc))]
      [("later.json", none)] "bad.json" (by decide)⟩

/-- C6: with zero JSON files, `main` returns exit code 0 and prints only
the informational notice; absence of configuration files is not an
error. -/
theorem C6_no_files_success : main [] = (0, [OutMsg.infoNoFiles]) := rfl

/-- C7: on any document accepted by the union, `projectName = "ab"` (two
characters) is rejected, `projectName = "abc"` is accepted, and
`projectName = "-abc"` (leading hyphen) is rejected. -/
theorem C7_projectName_rules (o : List (String × Json))
    (h : validatesUnion (Json.obj o) = true) :
    validatesUnion
        (Json.obj (setField o "projectName" (Json.str "ab"))) = false ∧
    validatesUnion
        (Json.obj (setField o "projectName" (Json.str "abc"))) = true ∧
    validatesUnion
        (Json.obj (setField o "projectName" (Json.str "-abc"))) = false := by
  refine ⟨?_, ?_, ?_⟩
  · simp only [validatesUnion, validatesML, validatesAgentic,
      ml_set_projectName_false (Json.str "ab") o (by decide),
      ag_set_projectName_false (Json.str "ab") o (by decide), Bool.or_false]
  · simp only [validatesUnion, validatesML, validatesAgentic,
      Bool.or_eq_true] at h ⊢
    rcases h with h | h
    · exact Or.inl (ml_set_projectName_true (Json.str "abc") o (by decide) h)
    · exact Or.inr (ag_set_projectName_true (Json.str "abc") o (by decide) h)
  · simp only [validatesUnion, validatesML, validatesAgentic,
      ml_set_projectName_false (Json.str "-abc") o (by decide),
      ag_set_projectName_false (Json.str "-abc") o (by decide), Bool.or_false]

/-- Witness for C7, at the concrete document `validMLDoc`. -/
theorem C7_witness :
    validatesUnion (Json.obj validMLDoc) = true ∧
      (validatesUnion
          (Json.obj (setField validMLDoc "projectName"
            (Json.str "ab"))) = false ∧
        validatesUnion
          (Json.obj (setField validMLDoc "projectName"
            (Json.str "abc"))) = true ∧
        validatesUnion
          (Json.obj (setField validMLDoc "projectName"
            (Json.str "-abc"))) = false) :=
  ⟨by decide, C7_projectName_rules validMLDoc (by decide)⟩

/-- C8: on any document accepted by the union,
`adminAccounts = "not-an-email"` is rejected and
`adminAccounts = ["a@b.co"]` is accepted; moreover any `adminAccounts`
value of an accepted document must be an email-shaped string of 6 to 254
characters or a list of such strings (`vStrOrList emailStr`). -/
theorem C8_adminAccounts_rules (o : List (String × Json))
    (h : validatesUnion (Json.obj o) = true) :
    validatesUnion
        (Json.obj (setField o "adminAccounts"
          (Json.str "not-an-email"))) = false ∧
    validatesUnion
        (Json.obj (setField o "adminAccounts"
          (Json.arr [Json.str "a@b.co"]))) = true ∧
    (∀ v : Json,
      validatesUnion (Json.obj (setField o "adminAccounts" v)) = true →
        vStrOrList emailStr v = true) := by
  refine ⟨?_, ?_, ?_⟩
  · simp only [validatesUnion, validatesML, validatesAgentic,
      ml_set_adminAccounts_false (Json.str "not-an-email") o (by decide),
      ag_set_adminAccounts_false (Json.str "not-an-email") o (by decide),
      Bool.or_false]
  · simp only [validatesUnion, validatesML, validatesAgentic,
      Bool.or_eq_true] at h ⊢
    rcases h with h | h
    · exact Or.inl
        (ml_set_adminAccounts_true (Json.arr [Json.str "a@b.co"]) o
          (by decide) h)
    · exact Or.inr
        (ag_set_adminAccounts_true (Json.arr [Json.str "a@b.co"]) o
          (by decide) h)
  · intro v hv
    simp only [validatesUnion, validatesML, validatesAgentic,
      Bool.or_eq_true] at hv
    rcases hv with hv | hv
    · exact ml_set_adminAccounts_inv v o hv
    · exact ag_set_adminAccounts_inv v o hv

/-- Witness for C8, at the concrete document `validMLDoc`. -/
theorem C8_witness :
    validatesUnion (Json.obj validMLDoc) = true ∧
      (validatesUnion
          (Json.obj (setField validMLDoc "adminAccounts"
            (Json.str "not-an-email"))) = false ∧
        validatesUnion
          (Json.obj (setField validMLDoc "adminAccounts"
            (Json.arr [Json.str "a@b.co"]))) = true ∧
        (∀ v : Json,
          validatesUnion
              (Json.obj (setField validMLDoc "adminAccounts" v)) = true →
            vStrOrList emailStr v = true)) :=
  ⟨by decide, C8_adminAccounts_rules validMLDoc (by decide)⟩

/-- Counterexample to C9 as stated: `bucketMaasName` does not accept the
list form.  On the otherwise fully valid document `validMLDoc`, setting
`bucketMaasName` to the list `["abc"]` — whose single entry is a valid
bucket string — makes validation fail, because the source annotates the
field as `Optional[BucketName]`, not a union with a list. -/
theorem C9_counterexample :
    validatesUnion
        (Json.obj (setField validMLDoc "bucketMaasName"
          (Json.arr [Json.str "abc"]))) = false ∧
      validatesUnion
        (Json.obj (setField validMLDoc "bucketMaasName"
          (Json.str "abc"))) = true := by decide

/-- C9 (amended): `bucketMaasName` is optional (absence and an explicit
null are both accepted) and, when present, accepts only a single
GCS-bucket-shaped string of 3 to 63 characters; the list form is
rejected. -/
theorem C9_bucketMaas_single_only (o : List (String × Json))
    (h : validatesUnion (Json.obj o) = true) :
    validatesUnion
        (Json.obj (setField o "bucketMaasName" Json.null)) = true ∧
    validatesUnion
        (Json.obj (setField o "bucketMaasName" (Json.str "abc"))) = true ∧
    validatesUnion
        (Json.obj (setField o "bucketMaasName"
          (Json.arr [Json.str "abc"]))) = false ∧
    (∀ s : String,
      validatesUnion
          (Json.obj (setField o "bucketMaasName" (Json.str s))) = true →
        bucketName s = true) := by
  refine ⟨?_, ?_, ?_, ?_⟩
  · simp only [validatesUnion, validatesML, validatesAgentic,
      Bool.or_eq_true] at h ⊢
    rcases h with h | h
    · exact Or.inl (ml_set_bucketMaas_true Json.null o (by decide) h)
    · exact Or.inr (ag_set_bucketMaas_true Json.null o (by decide) h)
  · simp only [validatesUnion, validatesML, validatesAgentic,
      Bool.or_eq_true] at h ⊢
    rcases h with h | h
    · exact Or.inl (ml_set_bucketMaas_true (Json.str "abc") o (by decide) h)
    · exact Or.inr (ag_set_bucketMaas_true (Json.str "abc") o (by decide) h)
  · simp only [validatesUnion, validatesML, validatesAgentic,
      ml_set_bucketMaas_false (Json.arr [Json.str "abc"]) o (by decide),
      ag_set_bucketMaas_false (Json.arr [Json.str "abc"]) o (by decide),
      Bool.or_false]
  · intro s hs
    simp only [validatesUnion, validatesML, validatesAgentic,
      Bool.or_eq_true] at hs
    have hopt : opt (vStr bucketName) (some (Json.str s)) = true := by
      rcases hs with hs | hs
      · exact ml_set_bucketMaas_inv (Json.str s) o hs
      · exact ag_set_bucketMaas_inv (Json.str s) o hs
    simpa [opt, vStr] using hopt

/-- Witness for the amended C9, at the concrete document `validMLDoc`. -/
theorem C9_witness :
    validatesUnion (Json.obj validMLDoc) = true ∧
      (validatesUnion
          (Json.obj (setField validMLDoc "bucketMaasName"
            Json.null)) = true ∧
        validatesUnion
          (Json.obj (setField validMLDoc "bucketMaasName"
            (Json.str "abc"))) = true ∧
        validatesUnion
          (Json.obj (setField validMLDoc "bucketMaasName"
            (Json.arr [Json.str "abc"]))) = false ∧
        (∀ s : String,
          validatesUnion
              (Json.obj (setField validMLDoc "bucketMaasName"
                (Json.str s))) = true →
            bucketName s = true)) :=
  ⟨by decide, C9_bucketMaas_single_only validMLDoc (by decide)⟩

/-- C10: unknown keys never cause rejection: adding a binding for any key
that is not a declared field of either pydantic model keeps an accepted
document accepted. -/
theorem C10_extra_keys_ignored (o : List (String × Json)) (k : String)
    (v : Json) (hk : k ∉ mlFieldNames ∧ k ∉ agenticFieldNames)
    (h : validatesUnion (Json.obj o) = true) :
    validatesUnion (Json.obj (setField o k v)) = true := by
  simp only [validatesUnion, validatesML, validatesAgentic,
    Bool.or_eq_true] at h ⊢
  rcases h with h | h
  · exact Or.inl (by rw [ml_set_extra_id k v o hk.1]; exact h)
  · exact Or.inr (by rw [ag_set_extra_id k v o hk.1]; exact h)

/-- Witness for C10: adding the undeclared key `extraConfigKey` to the
accepted document `validMLDoc`. -/
theorem C10_witness :
    ("extraConfigKey" ∉ mlFieldNames ∧ "extraConfigKey" ∉ agenticFieldNames) ∧
      validatesUnion (Json.obj validMLDoc) = true ∧
      validatesUnion
        (Json.obj (setField validMLDoc "extraConfigKey"
          (Json.str "anything"))) = true :=
  ⟨⟨by decide, by decide⟩, by decide,
    C10_extra_keys_ignored validMLDoc "extraConfigKey" (Json.str "anything")
      ⟨by decide, by decide⟩ (by decide)⟩

end PreGenProject

